import Mathlib

/-!
Verification of the Bedrock Support Assistant HTTP handler (`app.py`).

The handler is embedded shallowly: the two stdlib capabilities the code
leans on — `json.loads` and the Bedrock `invoke_model` call — are passed
in as function arguments, and the handler body is translated statement by
statement from `SupportTicketHandler.do_POST` / `do_GET`.  The result of a
POST records both the HTTP response and whether the inference client was
invoked, so that "no inference call is attempted" claims are statable.
-/

set_option maxRecDepth 100000

namespace SupportApp

/-- JSON values, the image of Python's `json.loads`.  Numbers are modelled
as integers: no claim under study depends on fractional numbers. -/
inductive Json where
  | null : Json
  | bool : Bool → Json
  | num : Int → Json
  | str : String → Json
  | arr : List Json → Json
  | obj : List (String × Json) → Json

/-- An HTTP response: status code and JSON body. -/
structure Response where
  status : Nat
  body : Json

/-- `{"error": msg}`, the error envelope used throughout `app.py`. -/
def errObj (msg : String) : Json := Json.obj [("error", Json.str msg)]

/-- First binding of a key in an object's field list.  Objects produced by
`json.loads` have no duplicate keys, so first/last lookup coincide. -/
def lookupField : List (String × Json) → String → Option Json
  | [], _ => none
  | (k, v) :: rest, key => if k = key then some v else lookupField rest key

/-- `data.get(key, default)` for a `Json` value known to be an object;
on a non-object the Python call raises, which callers model separately. -/
def objGetD (data : Json) (key : String) (dflt : Json) : Json :=
  match data with
  | Json.obj fields => (lookupField fields key).getD dflt
  | _ => dflt

/-- `data.get(key, default)` as used at `ticket = data.get("ticket", "")`:
`none` models the `AttributeError` raised when `data` is not a dict
(e.g. a JSON array), which the catch-all `except` turns into a 500. -/
def pyGet (data : Json) (key : String) (dflt : Json) : Option Json :=
  match data with
  | Json.obj fields => some ((lookupField fields key).getD dflt)
  | _ => none

/-- Does `small` start the list `big`? (helper for substring containment). -/
def listStartsWith : List Char → List Char → Bool
  | [], _ => true
  | _ :: _, [] => false
  | a :: as, b :: bs => a == b && listStartsWith as bs

/-- Does `pat` occur contiguously in `s`? (helper for `strContains`). -/
def listHasSub (pat : List Char) : List Char → Bool
  | [] => listStartsWith pat []
  | c :: rest => listStartsWith pat (c :: rest) || listHasSub pat rest

/-- Python's substring test `pat in hay`. -/
def strContains (hay pat : String) : Bool :=
  listHasSub pat.toList hay.toList

/-- Characters stripped by Python's `str.strip()` (ASCII whitespace; the
claims under study involve no exotic Unicode whitespace). -/
def isPySpace (c : Char) : Bool :=
  c = ' ' || c = '\t' || c = '\n' || c = '\r' || c = '\x0b' || c = '\x0c'

/-- Python's `str.strip()`: drop leading and trailing whitespace. -/
def pyStrip (s : String) : String :=
  (((s.toList.dropWhile isPySpace).reverse.dropWhile isPySpace).reverse).asString

/-- `MAX_TICKET_LENGTH` from `app.py`. -/
def maxTicketLength : Nat := 5000

/-- The message of the oversized-ticket rejection (f-string in `app.py`). -/
def tooLongMsg : String :=
  "Ticket exceeds maximum length of " ++ toString maxTicketLength ++ " characters"

/-- The fixed system prompt of `do_POST`. -/
def systemPrompt : String :=
  "You are a support ticket analyzer. Analyze the following support ticket and provide:\n1. A brief summary (1-2 sentences)\n2. Severity level (critical, high, medium, low)\n3. Category (technical, billing, account, other)\n4. Suggested response to send to the customer\n\nFormat your response as JSON with fields: summary, severity, category, suggested_response"

/-- `prompt = f"\x7bsystem_prompt\x7d\n\nSupport Ticket:\n\x7bticket\x7d"`. -/
def buildPrompt (ticket : String) : String :=
  systemPrompt ++ "\n\nSupport Ticket:\n" ++ ticket

/-- Outcome of one `bedrock_client.invoke_model` call, at the granularity
`do_POST` observes it: the extracted assistant text on success, a
`ClientError` carrying `e.response["Error"]["Code"]`, or a `BotoCoreError`. -/
inductive BedrockOutcome where
  | success : String → BedrockOutcome
  | clientError : String → BedrockOutcome
  | botoCoreError : BedrockOutcome
deriving DecidableEq

/-- One incoming POST request as `do_POST` reads it:
`contentType = self.headers.get("Content-Type", "")`,
`contentLength = int(self.headers.get("Content-Length", 0))` (an `Int`:
a client may send a negative Content-Length header), and the decoded
text available on `self.rfile`. -/
structure PostRequest where
  contentType : String
  contentLength : Int
  body : String
deriving DecidableEq

/-- `self.rfile.read(content_length)`: a negative size reads to EOF
(the whole available body), otherwise the first `n` characters. -/
def readBody (req : PostRequest) : String :=
  if req.contentLength < 0 then req.body else req.body.take req.contentLength.toNat

/-- Result of `do_POST`: the response written, plus whether
`bedrock_client.invoke_model` was invoked. -/
structure PostResult where
  response : Response
  invoked : Bool

/-- The tail of `do_POST` from "# Call Bedrock" on: build the prompt,
invoke the model, parse-or-wrap the assistant text, and map `ClientError`
/ `BotoCoreError` to the fixed statuses. `data` is the parsed request
body (needed for `data.get("ticket_id", "N/A")`), `ticket` the stripped
ticket text. -/
def bedrockPhase (loads : String → Option Json) (invoke : String → BedrockOutcome)
    (data : Json) (ticket : String) : PostResult :=
  match invoke (buildPrompt ticket) with
  | BedrockOutcome.success msg =>
      let analysis : Json :=
        match loads msg with
        | some j => j
        | none => Json.obj [("analysis", Json.str msg)]
      { response := { status := 200,
                      body := Json.obj [("ticket_id", objGetD data "ticket_id" (Json.str "N/A")),
                                        ("analysis", analysis)] },
        invoked := true }
  | BedrockOutcome.clientError code =>
      if strContains code "ThrottlingException" then
        { response := { status := 429, body := errObj "Service temporarily unavailable (throttled)" },
          invoked := true }
      else if strContains code "AccessDeniedException" then
        { response := { status := 403, body := errObj "Access denied - check AWS credentials and permissions" },
          invoked := true }
      else
        { response := { status := 502, body := errObj "Bedrock service error" }, invoked := true }
  | BedrockOutcome.botoCoreError =>
      { response := { status := 502, body := errObj "AWS service error" }, invoked := true }

/-- `SupportTicketHandler.do_POST`, translated line by line.
`loads` stands for `json.loads` (`none` = `JSONDecodeError`),
`bedrockConfigured` for `bedrock_client` being non-`None`, and `invoke`
for the outcome `invoke_model` would produce on a given prompt. -/
def doPost (loads : String → Option Json) (bedrockConfigured : Bool)
    (invoke : String → BedrockOutcome) (req : PostRequest) : PostResult :=
  if ¬ strContains req.contentType "application/json" then
    { response := { status := 400, body := errObj "Content-Type must be application/json" },
      invoked := false }
  else if req.contentLength = 0 then
    { response := { status := 400, body := errObj "No content provided" }, invoked := false }
  else if req.contentLength > 10485760 then
    { response := { status := 413, body := errObj "Payload too large" }, invoked := false }
  else
    match loads (readBody req) with
    | none =>
        { response := { status := 400, body := errObj "Invalid JSON" }, invoked := false }
    | some data =>
        match pyGet data "ticket" (Json.str "") with
        | none =>
            -- `data.get` raised: the outer `except Exception` answers 500.
            { response := { status := 500, body := errObj "Internal server error" },
              invoked := false }
        | some (Json.str raw) =>
            let ticket := pyStrip raw
            if ticket = "" then
              { response := { status := 400, body := errObj "Missing or empty 'ticket' field" },
                invoked := false }
            else if ticket.length > maxTicketLength then
              { response := { status := 400, body := errObj tooLongMsg }, invoked := false }
            else if ¬ bedrockConfigured then
              { response := { status := 503, body := errObj "Bedrock service unavailable" },
                invoked := false }
            else
              bedrockPhase loads invoke data ticket
        | some _ =>
            -- `.strip()` on a non-string raised: again the catch-all 500.
            { response := { status := 500, body := errObj "Internal server error" },
              invoked := false }

/-- `REGION` from `app.py`. -/
def region : String := "eu-west-2"

/-- `MODEL_ID` from `app.py`. -/
def modelId : String := "amazon.nova-pro-v1:0"

/-- `SupportTicketHandler.do_GET`.  The module-level `bedrock_client` is
in scope but never read by `do_GET`; it is passed here (and ignored) so
that independence from the client's state is a statable property.
`timestamp` stands for `datetime.utcnow().isoformat()`. -/
def doGet (_bedrockConfigured : Bool) (path : String) (timestamp : String) : Response :=
  if path = "/health" then
    { status := 200,
      body := Json.obj [("status", Json.str "healthy"),
                        ("timestamp", Json.str timestamp),
                        ("service", Json.str "bedrock-support-assistant"),
                        ("region", Json.str region),
                        ("model", Json.str modelId)] }
  else
    { status := 404, body := errObj "Not found" }

/-- Field access on a response body (used to state claims about single
fields of the JSON envelope). -/
def getField (j : Json) (key : String) : Option Json :=
  match j with
  | Json.obj fields => lookupField fields key
  | _ => none

/-- Check 5 of the validation pipeline as the spec words it: the `ticket`
field must exist and be non-empty after trimming.  Returns the trimmed
ticket when the check passes.  (A value that is not a string cannot be
trimmed; the spec's wording treats it like a missing field — the murky
branch is exercised by no theorem below.) -/
def specTicket (data : Json) : Option String :=
  match data with
  | Json.obj fields =>
      match lookupField fields "ticket" with
      | some (Json.str s) => if pyStrip s = "" then none else some (pyStrip s)
      | _ => none
  | _ => none

/-- The six-check validation pipeline exactly as the spec words it
(second definition for the refinement comparison of the ordering claim):
checks in order — content type declares JSON, content length > 0, content
length ≤ 10 MiB, body parses as JSON, `ticket` exists and is non-empty
after trimming, trimmed length ≤ 5000 — each failing with the documented
status and message.  `some r` = the first failing check's response,
`none` = all checks pass. -/
def specValidationOutcome (loads : String → Option Json) (req : PostRequest) : Option Response :=
  if ¬ strContains req.contentType "application/json" then
    some { status := 400, body := errObj "Content-Type must be application/json" }
  else if ¬ req.contentLength > 0 then
    some { status := 400, body := errObj "No content provided" }
  else if req.contentLength > 10485760 then
    some { status := 413, body := errObj "Payload too large" }
  else
    match loads (readBody req) with
    | none => some { status := 400, body := errObj "Invalid JSON" }
    | some data =>
        match specTicket data with
        | none => some { status := 400, body := errObj "Missing or empty 'ticket' field" }
        | some t =>
            if t.length > maxTicketLength then
              some { status := 400, body := errObj tooLongMsg }
            else none

/-- The validation pipeline as the code actually runs it: check 2 rejects
only a content length of exactly 0 (negative lengths pass), and checks
5–6 go through `data.get("ticket", "").strip()`, so a non-object body or
a non-string `ticket` value lands in the catch-all 500 instead of the
400 of check 5. -/
def amendedValidationOutcome (loads : String → Option Json) (req : PostRequest) :
    Option Response :=
  if ¬ strContains req.contentType "application/json" then
    some { status := 400, body := errObj "Content-Type must be application/json" }
  else if req.contentLength = 0 then
    some { status := 400, body := errObj "No content provided" }
  else if req.contentLength > 10485760 then
    some { status := 413, body := errObj "Payload too large" }
  else
    match loads (readBody req) with
    | none => some { status := 400, body := errObj "Invalid JSON" }
    | some data =>
        match pyGet data "ticket" (Json.str "") with
        | none => some { status := 500, body := errObj "Internal server error" }
        | some (Json.str raw) =>
            if pyStrip raw = "" then
              some { status := 400, body := errObj "Missing or empty 'ticket' field" }
            else if (pyStrip raw).length > maxTicketLength then
              some { status := 400, body := errObj tooLongMsg }
            else none
        | some _ => some { status := 500, body := errObj "Internal server error" }

/-!
Concrete fixtures: a `json.loads` table keyed by short body tags, and
fixed invocation outcomes, used to evaluate the theorems at closed
inputs.  (`loads` is an arbitrary parameter of the embedding, so the
bodies need not be JSON-shaped text.)
-/

/-- A 5001-character ticket, one past `MAX_TICKET_LENGTH`. -/
def longTicket : String := (List.replicate 5001 'a').asString

/-- A concrete parse table standing for `json.loads` on closed inputs. -/
def fixLoads : String → Option Json := fun s =>
  if s = "B1" then some (Json.obj [("ticket", Json.str " hi "), ("ticket_id", Json.str "T-1")])
  else if s = "B2" then some (Json.obj [("ticket", Json.str "   ")])
  else if s = "B3" then some (Json.obj [])
  else if s = "B4" then some (Json.arr [Json.num 1])
  else if s = "B5" then some (Json.obj [("ticket", Json.num 5)])
  else if s = "B6" then some (Json.obj [("ticket", Json.str "héllo")])
  else if s = "B7" then some (Json.obj [("ticket", Json.str longTicket)])
  else if s = "OKJSON" then some (Json.obj [("summary", Json.str "s")])
  else none

/-- A well-formed request whose body parses to a ticket plus ticket_id. -/
def fixReq1 : PostRequest :=
  { contentType := "application/json", contentLength := 2, body := "B1" }

/-- A request whose `ticket` strips to the empty string. -/
def fixReq2 : PostRequest :=
  { contentType := "application/json", contentLength := 2, body := "B2" }

/-- A request parsing to an object with no `ticket` key. -/
def fixReq3 : PostRequest :=
  { contentType := "application/json", contentLength := 2, body := "B3" }

/-- A request whose body parses to a JSON array (not an object). -/
def fixReq4 : PostRequest :=
  { contentType := "application/json", contentLength := 2, body := "B4" }

/-- A request whose `ticket` value is a number, not a string. -/
def fixReq5 : PostRequest :=
  { contentType := "application/json", contentLength := 2, body := "B5" }

/-- A request with a multibyte (non-ASCII) ticket character. -/
def fixReq6 : PostRequest :=
  { contentType := "application/json", contentLength := 2, body := "B6" }

/-- A request whose `ticket` strips to 5001 characters. -/
def fixReq7 : PostRequest :=
  { contentType := "application/json", contentLength := 2, body := "B7" }

/-- A request carrying a negative Content-Length header. -/
def fixReqNeg : PostRequest :=
  { contentType := "application/json", contentLength := -1, body := "B1" }

/-- A request whose Content-Type does not declare JSON. -/
def fixReqBadCT : PostRequest :=
  { contentType := "text/plain", contentLength := 2, body := "B1" }

/-- Inference returning unparseable plain text. -/
def invokeRawText : String → BedrockOutcome := fun _ => BedrockOutcome.success "plain text answer"

/-- Inference returning text that `fixLoads` parses as a JSON object. -/
def invokeGoodJson : String → BedrockOutcome := fun _ => BedrockOutcome.success "OKJSON"

/-- Inference failing with a throttling `ClientError`. -/
def invokeThrottled : String → BedrockOutcome := fun _ =>
  BedrockOutcome.clientError "ThrottlingException"

/-- Inference failing with an access-denied `ClientError`. -/
def invokeDenied : String → BedrockOutcome := fun _ =>
  BedrockOutcome.clientError "AccessDeniedException"

/-- Inference failing with some other `ClientError`. -/
def invokeOtherClientError : String → BedrockOutcome := fun _ =>
  BedrockOutcome.clientError "ValidationException"

/-- Inference failing with a `BotoCoreError`. -/
def invokeBoto : String → BedrockOutcome := fun _ => BedrockOutcome.botoCoreError

/-- A string of length 0 is the empty string. -/
theorem string_len_zero {s : String} (h : s.length = 0) : s = "" := by
  cases s with
  | mk data =>
      cases data with
      | nil => rfl
      | cons c cs => simp [String.length] at h

/-- C9: every GET to `/health` answers 200 with the full health body,
whose `status` field is `"healthy"`, for any state of the Bedrock
client; every GET to any other path answers 404 with
`error: "Not found"`. -/
theorem C9_get_health (bc : Bool) (path ts : String) :
    (path = "/health" →
      doGet bc path ts =
        { status := 200,
          body := Json.obj [("status", Json.str "healthy"),
                            ("timestamp", Json.str ts),
                            ("service", Json.str "bedrock-support-assistant"),
                            ("region", Json.str region),
                            ("model", Json.str modelId)] }) ∧
    (path ≠ "/health" →
      doGet bc path ts = { status := 404, body := errObj "Not found" }) := by
  constructor
  · intro h
    simp [doGet, h]
  · intro h
    simp [doGet, h]

/-- Witness for C9: concrete health and non-health paths, with the
client both unconfigured and configured. -/
theorem C9_get_health_witness :
    doGet false "/health" "2026-10-12T00:00:00" =
      { status := 200,
        body := Json.obj [("status", Json.str "healthy"),
                          ("timestamp", Json.str "2026-10-12T00:00:00"),
                          ("service", Json.str "bedrock-support-assistant"),
                          ("region", Json.str region),
                          ("model", Json.str modelId)] } ∧
    doGet true "/missing" "t" = { status := 404, body := errObj "Not found" } :=
  ⟨(C9_get_health false "/health" "2026-10-12T00:00:00").1 rfl,
   (C9_get_health true "/missing" "t").2 (by decide)⟩

/-- C7: a request that passes all six validation checks, when no Bedrock
client is configured, gets 503 "Bedrock service unavailable", and the
inference client is not invoked. -/
theorem C7_unavailable_503 (loads : String → Option Json) (invoke : String → BedrockOutcome)
    (req : PostRequest) (fields : List (String × Json)) (raw : String)
    (hct : strContains req.contentType "application/json" = true)
    (hlen0 : ¬ req.contentLength = 0)
    (hmax : ¬ req.contentLength > 10485760)
    (hparse : loads (readBody req) = some (Json.obj fields))
    (hticket : lookupField fields "ticket" = some (Json.str raw))
    (hne : ¬ pyStrip raw = "")
    (hlen : ¬ (pyStrip raw).length > maxTicketLength) :
    doPost loads false invoke req =
      { response := { status := 503, body := errObj "Bedrock service unavailable" },
        invoked := false } := by
  simp [doPost, hct, hlen0, hmax, hparse, pyGet, hticket, hne, hlen]

/-- Witness for C7 at a concrete validated request. -/
theorem C7_unavailable_503_witness :
    doPost fixLoads false invokeRawText fixReq1 =
      { response := { status := 503, body := errObj "Bedrock service unavailable" },
        invoked := false } :=
  C7_unavailable_503 fixLoads invokeRawText fixReq1
    [("ticket", Json.str " hi "), ("ticket_id", Json.str "T-1")] " hi "
    (by decide) (by decide) (by decide) rfl rfl (by decide) (by decide)

/-- C1: on a validated request with a configured client, a successful
inference call always answers 200; the `analysis` field is the parsed
JSON of the model text verbatim when it parses (no re-validation of its
shape), and the wrapper `obj [("analysis", raw text)]` when it does not. -/
theorem C1_success_passthrough (loads : String → Option Json)
    (invoke : String → BedrockOutcome) (req : PostRequest)
    (fields : List (String × Json)) (raw msg : String)
    (hct : strContains req.contentType "application/json" = true)
    (hlen0 : ¬ req.contentLength = 0)
    (hmax : ¬ req.contentLength > 10485760)
    (hparse : loads (readBody req) = some (Json.obj fields))
    (hticket : lookupField fields "ticket" = some (Json.str raw))
    (hne : ¬ pyStrip raw = "")
    (hlen : ¬ (pyStrip raw).length > maxTicketLength)
    (hinv : invoke (buildPrompt (pyStrip raw)) = BedrockOutcome.success msg) :
    (doPost loads true invoke req).response.status = 200 ∧
    getField (doPost loads true invoke req).response.body "analysis" =
      some (match loads msg with
            | some j => j
            | none => Json.obj [("analysis", Json.str msg)]) := by
  have hmain : doPost loads true invoke req =
      { response :=
          { status := 200,
            body := Json.obj
              [("ticket_id", objGetD (Json.obj fields) "ticket_id" (Json.str "N/A")),
               ("analysis", (match loads msg with
                             | some j => j
                             | none => Json.obj [("analysis", Json.str msg)]))] },
        invoked := true } := by
    simp [doPost, hct, hlen0, hmax, hparse, pyGet, hticket, hne, hlen, bedrockPhase, hinv]
  rw [hmain]
  exact ⟨rfl, rfl⟩

/-- Witness for C1: one inference answer that parses as JSON and one
that does not, at the same validated request. -/
theorem C1_success_passthrough_witness :
    ((doPost fixLoads true invokeGoodJson fixReq1).response.status = 200 ∧
      getField (doPost fixLoads true invokeGoodJson fixReq1).response.body "analysis" =
        some (Json.obj [("summary", Json.str "s")])) ∧
    ((doPost fixLoads true invokeRawText fixReq1).response.status = 200 ∧
      getField (doPost fixLoads true invokeRawText fixReq1).response.body "analysis" =
        some (Json.obj [("analysis", Json.str "plain text answer")])) :=
  ⟨C1_success_passthrough fixLoads invokeGoodJson fixReq1
      [("ticket", Json.str " hi "), ("ticket_id", Json.str "T-1")] " hi " "OKJSON"
      (by decide) (by decide) (by decide) rfl rfl (by decide) (by decide) rfl,
   C1_success_passthrough fixLoads invokeRawText fixReq1
      [("ticket", Json.str " hi "), ("ticket_id", Json.str "T-1")] " hi " "plain text answer"
      (by decide) (by decide) (by decide) rfl rfl (by decide) (by decide) rfl⟩

/-- Stripping the empty string gives the empty string. -/
theorem pyStrip_empty : pyStrip "" = "" := rfl

/-- `dropWhile isPySpace` keeps a run of `'a'`s intact. -/
theorem dropWhile_replicate_a (n : Nat) :
    List.dropWhile isPySpace (List.replicate n 'a') = List.replicate n 'a' := by
  cases n with
  | zero => rfl
  | succ m =>
      rw [List.replicate_succ, List.dropWhile_cons]
      have ha : isPySpace 'a' = false := rfl
      rw [ha]
      simp

/-- The character list under `longTicket`. -/
theorem longTicket_toList : longTicket.toList = List.replicate 5001 'a' := rfl

/-- `longTicket` has no surrounding whitespace, so stripping fixes it. -/
theorem pyStrip_longTicket : pyStrip longTicket = longTicket := by
  unfold pyStrip
  rw [longTicket_toList, dropWhile_replicate_a, List.reverse_replicate,
      dropWhile_replicate_a, List.reverse_replicate]
  rfl

/-- `longTicket` counts 5001 characters. -/
theorem longTicket_length : longTicket.length = 5001 :=
  List.length_replicate 5001 'a'

/-- The stripped `longTicket` is past the configured maximum length. -/
theorem longTicket_overlong : (pyStrip longTicket).length > maxTicketLength := by
  rw [pyStrip_longTicket, longTicket_length]
  decide

/-- C2: on a validated request with a configured client, each inference
failure maps deterministically to exactly one caller-facing error:
a `ClientError` whose code names throttling gives 429 with its fixed
message, one naming access-denied gives 403 with its fixed message, any
other `ClientError` gives 502 "Bedrock service error", and a
`BotoCoreError` gives 502 "AWS service error". -/
theorem C2_failure_mapping (loads : String → Option Json)
    (invoke : String → BedrockOutcome) (req : PostRequest)
    (fields : List (String × Json)) (raw : String) (o : BedrockOutcome)
    (hct : strContains req.contentType "application/json" = true)
    (hlen0 : ¬ req.contentLength = 0)
    (hmax : ¬ req.contentLength > 10485760)
    (hparse : loads (readBody req) = some (Json.obj fields))
    (hticket : lookupField fields "ticket" = some (Json.str raw))
    (hne : ¬ pyStrip raw = "")
    (hlen : ¬ (pyStrip raw).length > maxTicketLength)
    (hinv : invoke (buildPrompt (pyStrip raw)) = o) :
    (∀ code, o = BedrockOutcome.clientError code →
      (strContains code "ThrottlingException" = true →
        doPost loads true invoke req =
          { response := { status := 429,
                          body := errObj "Service temporarily unavailable (throttled)" },
            invoked := true }) ∧
      (strContains code "ThrottlingException" = false →
        strContains code "AccessDeniedException" = true →
        doPost loads true invoke req =
          { response := { status := 403,
                          body := errObj "Access denied - check AWS credentials and permissions" },
            invoked := true }) ∧
      (strContains code "ThrottlingException" = false →
        strContains code "AccessDeniedException" = false →
        doPost loads true invoke req =
          { response := { status := 502, body := errObj "Bedrock service error" },
            invoked := true })) ∧
    (o = BedrockOutcome.botoCoreError →
      doPost loads true invoke req =
        { response := { status := 502, body := errObj "AWS service error" },
          invoked := true }) := by
  have hbp : doPost loads true invoke req =
      bedrockPhase loads invoke (Json.obj fields) (pyStrip raw) := by
    simp [doPost, hct, hlen0, hmax, hparse, pyGet, hticket, hne, hlen]
  constructor
  · intro code hcode
    subst hcode
    refine ⟨?_, ?_, ?_⟩
    · intro hth
      rw [hbp]
      simp [bedrockPhase, hinv, hth]
    · intro hth had
      rw [hbp]
      simp [bedrockPhase, hinv, hth, had]
    · intro hth had
      rw [hbp]
      simp [bedrockPhase, hinv, hth, had]
  · intro hcode
    subst hcode
    rw [hbp]
    simp [bedrockPhase, hinv]

/-- Witness for C2: the four failure shapes at one validated request. -/
theorem C2_failure_mapping_witness :
    doPost fixLoads true invokeThrottled fixReq1 =
      { response := { status := 429,
                      body := errObj "Service temporarily unavailable (throttled)" },
        invoked := true } ∧
    doPost fixLoads true invokeDenied fixReq1 =
      { response := { status := 403,
                      body := errObj "Access denied - check AWS credentials and permissions" },
        invoked := true } ∧
    doPost fixLoads true invokeOtherClientError fixReq1 =
      { response := { status := 502, body := errObj "Bedrock service error" },
        invoked := true } ∧
    doPost fixLoads true invokeBoto fixReq1 =
      { response := { status := 502, body := errObj "AWS service error" },
        invoked := true } := by
  refine ⟨?_, ?_, ?_, ?_⟩
  · exact ((C2_failure_mapping fixLoads invokeThrottled fixReq1
      [("ticket", Json.str " hi "), ("ticket_id", Json.str "T-1")] " hi "
      (BedrockOutcome.clientError "ThrottlingException")
      (by decide) (by decide) (by decide) rfl rfl (by decide) (by decide) rfl).1
      "ThrottlingException" rfl).1 (by decide)
  · exact (((C2_failure_mapping fixLoads invokeDenied fixReq1
      [("ticket", Json.str " hi "), ("ticket_id", Json.str "T-1")] " hi "
      (BedrockOutcome.clientError "AccessDeniedException")
      (by decide) (by decide) (by decide) rfl rfl (by decide) (by decide) rfl).1
      "AccessDeniedException" rfl).2.1 (by decide)) (by decide)
  · exact (((C2_failure_mapping fixLoads invokeOtherClientError fixReq1
      [("ticket", Json.str " hi "), ("ticket_id", Json.str "T-1")] " hi "
      (BedrockOutcome.clientError "ValidationException")
      (by decide) (by decide) (by decide) rfl rfl (by decide) (by decide) rfl).1
      "ValidationException" rfl).2.2 (by decide)) (by decide)
  · exact (C2_failure_mapping fixLoads invokeBoto fixReq1
      [("ticket", Json.str " hi "), ("ticket_id", Json.str "T-1")] " hi "
      BedrockOutcome.botoCoreError
      (by decide) (by decide) (by decide) rfl rfl (by decide) (by decide) rfl).2 rfl

/-- C5: a body that parses to a JSON object lacking the `ticket` key, or
whose `ticket` value strips to the empty string, is answered 400
"Missing or empty 'ticket' field" (and no inference call happens). -/
theorem C5_missing_or_blank_ticket (loads : String → Option Json) (bc : Bool)
    (invoke : String → BedrockOutcome) (req : PostRequest)
    (fields : List (String × Json))
    (hct : strContains req.contentType "application/json" = true)
    (hlen0 : ¬ req.contentLength = 0)
    (hmax : ¬ req.contentLength > 10485760)
    (hparse : loads (readBody req) = some (Json.obj fields))
    (hmiss : lookupField fields "ticket" = none ∨
      ∃ s, lookupField fields "ticket" = some (Json.str s) ∧ pyStrip s = "") :
    doPost loads bc invoke req =
      { response := { status := 400, body := errObj "Missing or empty 'ticket' field" },
        invoked := false } := by
  rcases hmiss with h | ⟨s, hs, hstrip⟩
  · simp [doPost, hct, hlen0, hmax, hparse, pyGet, h, pyStrip_empty]
  · simp [doPost, hct, hlen0, hmax, hparse, pyGet, hs, hstrip]

/-- Witness for C5: an object with no `ticket` key and an object whose
`ticket` is only whitespace. -/
theorem C5_missing_or_blank_ticket_witness :
    doPost fixLoads true invokeGoodJson fixReq3 =
      { response := { status := 400, body := errObj "Missing or empty 'ticket' field" },
        invoked := false } ∧
    doPost fixLoads true invokeGoodJson fixReq2 =
      { response := { status := 400, body := errObj "Missing or empty 'ticket' field" },
        invoked := false } :=
  ⟨C5_missing_or_blank_ticket fixLoads true invokeGoodJson fixReq3 []
      (by decide) (by decide) (by decide) rfl (Or.inl rfl),
   C5_missing_or_blank_ticket fixLoads true invokeGoodJson fixReq2
      [("ticket", Json.str "   ")]
      (by decide) (by decide) (by decide) rfl
      (Or.inr ⟨"   ", rfl, by decide⟩)⟩

/-- C4: for a request that passed checks 1–4 with a string `ticket`
value, validation succeeds exactly when the trimmed length lies in
(0, 5000]: trimmed length 0 answers 400 "Missing or empty 'ticket'
field", trimmed length above 5000 answers 400 with the message naming
the 5000-character limit, and a trimmed length in the window falls
through to the Bedrock phase.  Lengths count characters of the decoded
string, not bytes. -/
theorem C4_ticket_length_window (loads : String → Option Json) (bc : Bool)
    (invoke : String → BedrockOutcome) (req : PostRequest)
    (fields : List (String × Json)) (raw : String)
    (hct : strContains req.contentType "application/json" = true)
    (hlen0 : ¬ req.contentLength = 0)
    (hmax : ¬ req.contentLength > 10485760)
    (hparse : loads (readBody req) = some (Json.obj fields))
    (hticket : lookupField fields "ticket" = some (Json.str raw)) :
    ((pyStrip raw).length = 0 →
      doPost loads bc invoke req =
        { response := { status := 400, body := errObj "Missing or empty 'ticket' field" },
          invoked := false }) ∧
    ((pyStrip raw).length > maxTicketLength →
      doPost loads bc invoke req =
        { response := { status := 400, body := errObj tooLongMsg }, invoked := false }) ∧
    (0 < (pyStrip raw).length → (pyStrip raw).length ≤ maxTicketLength →
      doPost loads bc invoke req =
        (if bc then bedrockPhase loads invoke (Json.obj fields) (pyStrip raw)
         else { response := { status := 503, body := errObj "Bedrock service unavailable" },
                invoked := false })) := by
  refine ⟨?_, ?_, ?_⟩
  · intro h
    have he : pyStrip raw = "" := string_len_zero h
    simp [doPost, hct, hlen0, hmax, hparse, pyGet, hticket, he, pyStrip_empty]
  · intro h
    have hne : ¬ pyStrip raw = "" := by
      intro he
      rw [he] at h
      exact absurd h (by decide)
    simp [doPost, hct, hlen0, hmax, hparse, pyGet, hticket, hne, h]
  · intro h1 h2
    have hne : ¬ pyStrip raw = "" := by
      intro he
      rw [he] at h1
      exact absurd h1 (by decide)
    have hlt : ¬ (pyStrip raw).length > maxTicketLength := not_lt.mpr h2
    cases bc with
    | true => simp [doPost, hct, hlen0, hmax, hparse, pyGet, hticket, hne, hlt]
    | false => simp [doPost, hct, hlen0, hmax, hparse, pyGet, hticket, hne, hlt]

/-- Witness for C4: a blank ticket, a 5001-character ticket, and a
5-character ticket containing a multibyte (two-byte UTF-8) character,
which counts as one character. -/
theorem C4_ticket_length_window_witness :
    doPost fixLoads true invokeGoodJson fixReq2 =
      { response := { status := 400, body := errObj "Missing or empty 'ticket' field" },
        invoked := false } ∧
    doPost fixLoads true invokeGoodJson fixReq7 =
      { response := { status := 400, body := errObj tooLongMsg }, invoked := false } ∧
    doPost fixLoads true invokeGoodJson fixReq6 =
      bedrockPhase fixLoads invokeGoodJson (Json.obj [("ticket", Json.str "héllo")])
        (pyStrip "héllo") := by
  refine ⟨?_, ?_, ?_⟩
  · exact (C4_ticket_length_window fixLoads true invokeGoodJson fixReq2
      [("ticket", Json.str "   ")] "   "
      (by decide) (by decide) (by decide) rfl rfl).1 (by decide)
  · exact (C4_ticket_length_window fixLoads true invokeGoodJson fixReq7
      [("ticket", Json.str longTicket)] longTicket
      (by decide) (by decide) (by decide) rfl rfl).2.1 longTicket_overlong
  · have h := (C4_ticket_length_window fixLoads true invokeGoodJson fixReq6
      [("ticket", Json.str "héllo")] "héllo"
      (by decide) (by decide) (by decide) rfl rfl).2.2 (by decide) (by decide)
    simpa using h

/-- C6: a request whose stripped `ticket` exceeds the maximum length is
always rejected (non-200) and never triggers an invocation of the
inference client, whatever the other header values and client state. -/
theorem C6_oversized_never_invoked (loads : String → Option Json) (bc : Bool)
    (invoke : String → BedrockOutcome) (req : PostRequest) (data : Json) (raw : String)
    (hparse : loads (readBody req) = some data)
    (hticket : pyGet data "ticket" (Json.str "") = some (Json.str raw))
    (hlong : (pyStrip raw).length > maxTicketLength) :
    (doPost loads bc invoke req).invoked = false ∧
    (doPost loads bc invoke req).response.status ≠ 200 := by
  have hne : ¬ pyStrip raw = "" := by
    intro he
    rw [he] at hlong
    exact absurd hlong (by decide)
  by_cases h1 : strContains req.contentType "application/json" = true
  swap
  · simp [doPost, h1]
  by_cases h2 : req.contentLength = 0
  · simp [doPost, h1, h2]
  by_cases h3 : req.contentLength > 10485760
  · simp [doPost, h1, h2, h3]
  · simp [doPost, h1, h2, h3, hparse, hticket, hne, hlong]

/-- Witness for C6 at the 5001-character ticket. -/
theorem C6_oversized_never_invoked_witness :
    (doPost fixLoads true invokeGoodJson fixReq7).invoked = false ∧
    (doPost fixLoads true invokeGoodJson fixReq7).response.status ≠ 200 :=
  C6_oversized_never_invoked fixLoads true invokeGoodJson fixReq7
    (Json.obj [("ticket", Json.str longTicket)]) longTicket rfl rfl longTicket_overlong

/-- C10: a body that passes the content-type, length and JSON-parse
checks but whose top-level value is not an object, or whose `ticket`
value is not a string, is answered by the catch-all 500 "Internal server
error" (the `.get`/`.strip` calls raise), not by a 400 validation
error. -/
theorem C10_nonobject_or_nonstring_500 (loads : String → Option Json) (bc : Bool)
    (invoke : String → BedrockOutcome) (req : PostRequest) (data : Json)
    (hct : strContains req.contentType "application/json" = true)
    (hlen0 : ¬ req.contentLength = 0)
    (hmax : ¬ req.contentLength > 10485760)
    (hparse : loads (readBody req) = some data)
    (hbad : (∀ fields, data ≠ Json.obj fields) ∨
      (∃ fields v, data = Json.obj fields ∧ lookupField fields "ticket" = some v ∧
        ∀ s, v ≠ Json.str s)) :
    doPost loads bc invoke req =
      { response := { status := 500, body := errObj "Internal server error" },
        invoked := false } := by
  rcases hbad with h | ⟨fields, v, hdata, hv, hns⟩
  · have hg : pyGet data "ticket" (Json.str "") = none := by
      cases data with
      | obj fields => exact absurd rfl (h fields)
      | null => rfl
      | bool b => rfl
      | num n => rfl
      | str s => rfl
      | arr xs => rfl
    simp [doPost, hct, hlen0, hmax, hparse, hg]
  · subst hdata
    have hg : pyGet (Json.obj fields) "ticket" (Json.str "") = some v := by
      simp [pyGet, hv]
    cases v with
    | str s => exact absurd rfl (hns s)
    | null => simp [doPost, hct, hlen0, hmax, hparse, hg]
    | bool b => simp [doPost, hct, hlen0, hmax, hparse, hg]
    | num n => simp [doPost, hct, hlen0, hmax, hparse, hg]
    | arr xs => simp [doPost, hct, hlen0, hmax, hparse, hg]
    | obj fs => simp [doPost, hct, hlen0, hmax, hparse, hg]

/-- Witness for C10: a JSON array body and a numeric `ticket` value. -/
theorem C10_nonobject_or_nonstring_500_witness :
    doPost fixLoads true invokeGoodJson fixReq4 =
      { response := { status := 500, body := errObj "Internal server error" },
        invoked := false } ∧
    doPost fixLoads true invokeGoodJson fixReq5 =
      { response := { status := 500, body := errObj "Internal server error" },
        invoked := false } :=
  ⟨C10_nonobject_or_nonstring_500 fixLoads true invokeGoodJson fixReq4
      (Json.arr [Json.num 1]) (by decide) (by decide) (by decide) rfl
      (Or.inl (fun fields h => Json.noConfusion h)),
   C10_nonobject_or_nonstring_500 fixLoads true invokeGoodJson fixReq5
      (Json.obj [("ticket", Json.num 5)]) (by decide) (by decide) (by decide) rfl
      (Or.inr ⟨[("ticket", Json.num 5)], Json.num 5, rfl, rfl,
        fun s h => Json.noConfusion h⟩)⟩

/-- C8: every 200 response carries a `ticket_id` field equal to the
request's `ticket_id` value when one was supplied and to the default
`"N/A"` when it was omitted — the value of `data.get("ticket_id",
"N/A")` on the parsed body, never anything else. -/
theorem C8_ticket_id_echo (loads : String → Option Json) (bc : Bool)
    (invoke : String → BedrockOutcome) (req : PostRequest)
    (h200 : (doPost loads bc invoke req).response.status = 200) :
    ∃ fields, loads (readBody req) = some (Json.obj fields) ∧
      getField (doPost loads bc invoke req).response.body "ticket_id" =
        some ((lookupField fields "ticket_id").getD (Json.str "N/A")) := by
  by_cases h1 : strContains req.contentType "application/json" = true
  swap
  · simp [doPost, h1] at h200
  by_cases h2 : req.contentLength = 0
  · simp [doPost, h1, h2] at h200
  by_cases h3 : req.contentLength > 10485760
  · simp [doPost, h1, h2, h3] at h200
  cases hp : loads (readBody req) with
  | none => simp [doPost, h1, h2, h3, hp] at h200
  | some data =>
    cases data with
    | null => simp [doPost, h1, h2, h3, hp, pyGet] at h200
    | bool b => simp [doPost, h1, h2, h3, hp, pyGet] at h200
    | num n => simp [doPost, h1, h2, h3, hp, pyGet] at h200
    | str s => simp [doPost, h1, h2, h3, hp, pyGet] at h200
    | arr xs => simp [doPost, h1, h2, h3, hp, pyGet] at h200
    | obj fields =>
      cases ht : lookupField fields "ticket" with
      | none => simp [doPost, h1, h2, h3, hp, pyGet, ht, pyStrip_empty] at h200
      | some v =>
        cases v with
        | null => simp [doPost, h1, h2, h3, hp, pyGet, ht] at h200
        | bool b => simp [doPost, h1, h2, h3, hp, pyGet, ht] at h200
        | num n => simp [doPost, h1, h2, h3, hp, pyGet, ht] at h200
        | arr xs => simp [doPost, h1, h2, h3, hp, pyGet, ht] at h200
        | obj fs => simp [doPost, h1, h2, h3, hp, pyGet, ht] at h200
        | str raw =>
          by_cases h4 : pyStrip raw = ""
          · simp [doPost, h1, h2, h3, hp, pyGet, ht, h4] at h200
          by_cases h5 : (pyStrip raw).length > maxTicketLength
          · simp [doPost, h1, h2, h3, hp, pyGet, ht, h4, h5] at h200
          by_cases h6 : bc = true
          swap
          · simp [doPost, h1, h2, h3, hp, pyGet, ht, h4, h5, h6] at h200
          cases ho : invoke (buildPrompt (pyStrip raw)) with
          | clientError code =>
            by_cases hth : strContains code "ThrottlingException" = true
            · simp [doPost, h1, h2, h3, hp, pyGet, ht, h4, h5, h6,
                bedrockPhase, ho, hth] at h200
            by_cases had : strContains code "AccessDeniedException" = true
            · simp [doPost, h1, h2, h3, hp, pyGet, ht, h4, h5, h6,
                bedrockPhase, ho, hth, had] at h200
            · simp [doPost, h1, h2, h3, hp, pyGet, ht, h4, h5, h6,
                bedrockPhase, ho, hth, had] at h200
          | botoCoreError =>
            simp [doPost, h1, h2, h3, hp, pyGet, ht, h4, h5, h6,
              bedrockPhase, ho] at h200
          | success msg =>
            have hEq : doPost loads bc invoke req =
                { response :=
                    { status := 200,
                      body := Json.obj
                        [("ticket_id", objGetD (Json.obj fields) "ticket_id" (Json.str "N/A")),
                         ("analysis", (match loads msg with
                                       | some j => j
                                       | none => Json.obj [("analysis", Json.str msg)]))] },
                  invoked := true } := by
              simp [doPost, h1, h2, h3, hp, pyGet, ht, h4, h5, h6, bedrockPhase, ho]
            refine ⟨fields, rfl, ?_⟩
            rw [hEq]
            rfl

/-- Witness for C8: a request supplying `ticket_id` `"T-1"`, echoed back
on the 200 response. -/
theorem C8_ticket_id_echo_witness :
    getField (doPost fixLoads true invokeGoodJson fixReq1).response.body "ticket_id" =
      some (Json.str "T-1") := by
  obtain ⟨fields, hf, hg⟩ := C8_ticket_id_echo fixLoads true invokeGoodJson fixReq1 rfl
  have h2 : fixLoads (readBody fixReq1) =
      some (Json.obj [("ticket", Json.str " hi "), ("ticket_id", Json.str "T-1")]) := rfl
  rw [hf] at h2
  injection h2 with h3
  injection h3 with h4
  rw [h4] at hg
  exact hg.trans rfl

/-- C3 as stated is false: a request with Content-Length -1 fails the
spec's check 2 ("content length > 0", hence 400 "No content provided"),
but the code's test `content_length == 0` lets it through — the body is
read to EOF, validation passes, and the inference client is even
invoked (a 200 results here).  So `do_POST` does not implement the
six-check pipeline worded by the spec. -/
theorem C3_counterexample :
    ¬ (∀ (loads : String → Option Json) (bc : Bool) (invoke : String → BedrockOutcome)
        (req : PostRequest) (r : Response),
        specValidationOutcome loads req = some r →
        doPost loads bc invoke req = { response := r, invoked := false }) := by
  intro h
  have hs : specValidationOutcome fixLoads fixReqNeg =
      some { status := 400, body := errObj "No content provided" } := rfl
  have hd := h fixLoads true invokeGoodJson fixReqNeg _ hs
  have hi : (doPost fixLoads true invokeGoodJson fixReqNeg).invoked = true := rfl
  rw [hd] at hi
  exact Bool.false_ne_true hi

/-- C3 amended: the checks run in the stated order and short-circuit at
the first failure with the documented status and message, and no later
check or inference call is evaluated after a failure — with check 2
rejecting only a content length of exactly 0 (negative values pass both
length checks), and checks 5–6 applying Python's
`data.get("ticket", "").strip()`, so a non-object body or a non-string
`ticket` value is answered by the catch-all 500 instead of check 5's
400. -/
theorem C3_amended_checks (loads : String → Option Json) (bc : Bool)
    (invoke : String → BedrockOutcome) (req : PostRequest) (r : Response)
    (h : amendedValidationOutcome loads req = some r) :
    doPost loads bc invoke req = { response := r, invoked := false } := by
  by_cases h1 : strContains req.contentType "application/json" = true
  swap
  · simp [amendedValidationOutcome, h1] at h
    simp [doPost, h1, ← h]
  by_cases h2 : req.contentLength = 0
  · simp [amendedValidationOutcome, h1, h2] at h
    simp [doPost, h1, h2, ← h]
  by_cases h3 : req.contentLength > 10485760
  · simp [amendedValidationOutcome, h1, h2, h3] at h
    simp [doPost, h1, h2, h3, ← h]
  cases hp : loads (readBody req) with
  | none =>
    simp [amendedValidationOutcome, h1, h2, h3, hp] at h
    simp [doPost, h1, h2, h3, hp, ← h]
  | some data =>
    cases hg : pyGet data "ticket" (Json.str "") with
    | none =>
      simp [amendedValidationOutcome, h1, h2, h3, hp, hg] at h
      simp [doPost, h1, h2, h3, hp, hg, ← h]
    | some v =>
      cases v with
      | str raw =>
        by_cases h4 : pyStrip raw = ""
        · simp [amendedValidationOutcome, h1, h2, h3, hp, hg, h4] at h
          simp [doPost, h1, h2, h3, hp, hg, h4, ← h]
        by_cases h5 : (pyStrip raw).length > maxTicketLength
        · simp [amendedValidationOutcome, h1, h2, h3, hp, hg, h4, h5] at h
          simp [doPost, h1, h2, h3, hp, hg, h4, h5, ← h]
        · simp [amendedValidationOutcome, h1, h2, h3, hp, hg, h4, h5] at h
      | null =>
        simp [amendedValidationOutcome, h1, h2, h3, hp, hg] at h
        simp [doPost, h1, h2, h3, hp, hg, ← h]
      | bool b =>
        simp [amendedValidationOutcome, h1, h2, h3, hp, hg] at h
        simp [doPost, h1, h2, h3, hp, hg, ← h]
      | num n =>
        simp [amendedValidationOutcome, h1, h2, h3, hp, hg] at h
        simp [doPost, h1, h2, h3, hp, hg, ← h]
      | arr xs =>
        simp [amendedValidationOutcome, h1, h2, h3, hp, hg] at h
        simp [doPost, h1, h2, h3, hp, hg, ← h]
      | obj fs =>
        simp [amendedValidationOutcome, h1, h2, h3, hp, hg] at h
        simp [doPost, h1, h2, h3, hp, hg, ← h]

/-- Witness for the amended C3: a request whose Content-Type does not
declare JSON is stopped by check 1 with no inference call. -/
theorem C3_amended_checks_witness :
    doPost fixLoads true invokeGoodJson fixReqBadCT =
      { response := { status := 400, body := errObj "Content-Type must be application/json" },
        invoked := false } :=
  C3_amended_checks fixLoads true invokeGoodJson fixReqBadCT
    { status := 400, body := errObj "Content-Type must be application/json" } rfl

end SupportApp
